import Mathlib

/-!
Verification of the github-activity CLI (src/main.py): a shallow embedding of
the fetcher, the event-handler dispatch table and the seventeen formatters,
with theorems checking the specification's claims about them.

Python values read from the JSON API response are modelled by `PyVal`;
Python runtime failures (AttributeError, TypeError) by `PyErr`.  A formatter
returns the list of lines it prints, or the error it raises unhandled.
-/

namespace GithubActivity

/-- A Python value as parsed from the JSON API response. -/
inductive PyVal where
  | none
  | bool (b : Bool)
  | int (n : Int)
  | str (s : String)
  | list (items : List PyVal)
  | dict (fields : List (String × PyVal))

/-- A Python runtime error raised by a formatter, with its message text. -/
inductive PyErr where
  | attributeError (msg : String)
  | typeError (msg : String)
deriving DecidableEq

/-- The message text of an error, as an f-string renders the exception. -/
def pyErrStr : PyErr → String
  | .attributeError msg => msg
  | .typeError msg => msg

/-- The Python type name of a value, used in error messages. -/
def PyVal.typeName : PyVal → String
  | .none => "NoneType"
  | .bool _ => "bool"
  | .int _ => "int"
  | .str _ => "str"
  | .list _ => "list"
  | .dict _ => "dict"

/-- First binding of a key in an association list (record fields, tables). -/
def lookupKey {α : Type} : List (String × α) → String → Option α
  | [], _ => Option.none
  | (k, v) :: rest, key => if k = key then some v else lookupKey rest key

/-- Python dict.get(key, default): on a dict, the stored value or the default;
any other receiver has no get attribute and raises AttributeError. -/
def PyVal.get (v : PyVal) (key : String) (dflt : PyVal) : Except PyErr PyVal :=
  match v with
  | .dict fields => .ok ((lookupKey fields key).getD dflt)
  | _ => .error (.attributeError (v.typeName ++ " object has no attribute get"))

/-- Python repr, as printed for values nested inside lists and dicts. -/
def pyRepr : PyVal → String
  | .none => "None"
  | .bool true => "True"
  | .bool false => "False"
  | .int n => toString n
  | .str s => "'" ++ s ++ "'"
  | .list items => "[" ++ String.intercalate ", " (items.attach.map (fun x => pyRepr x.1)) ++ "]"
  | .dict fields =>
      "\x7b" ++ String.intercalate ", "
        (fields.attach.map (fun x => "'" ++ x.1.1 ++ "': " ++ pyRepr x.1.2)) ++ "\x7d"
decreasing_by
  · simp_wf
    have := List.sizeOf_lt_of_mem x.2
    omega
  · simp_wf
    obtain ⟨⟨k, v⟩, hm⟩ := x
    have := List.sizeOf_lt_of_mem hm
    simp at this ⊢
    omega

/-- Python str(v), as an f-string renders a value: strings stay as they are,
other values print their repr. -/
def pyStr : PyVal → String
  | .str s => s
  | v => pyRepr v

/-- Python truthiness, as used by the conditions in the formatters. -/
def pyTruthy : PyVal → Bool
  | .none => false
  | .bool b => b
  | .int n => n != 0
  | .str s => !s.isEmpty
  | .list items => !items.isEmpty
  | .dict fields => !fields.isEmpty

/-- Python v[:n]: slices strings and lists; other values are not
subscriptable and raise TypeError. -/
def pySlice (v : PyVal) (n : Nat) : Except PyErr PyVal :=
  match v with
  | .str s => .ok (.str (s.take n))
  | .list items => .ok (.list (items.take n))
  | _ => .error (.typeError (v.typeName ++ " object is not subscriptable"))

/-- Python len(v) on sized values; other values raise TypeError. -/
def pyLen (v : PyVal) : Except PyErr Nat :=
  match v with
  | .str s => .ok s.length
  | .list items => .ok items.length
  | .dict fields => .ok fields.length
  | _ => .error (.typeError ("object of type " ++ v.typeName ++ " has no len"))

/-- Python str.capitalize: the first character uppercased and every remaining
character lowercased. -/
def pyCapitalize (s : String) : String :=
  match s.data with
  | [] => ""
  | c :: cs => String.mk (Char.toUpper c :: cs.map Char.toLower)

/-- Python v.capitalize(): defined on strings only; any other receiver raises
AttributeError. -/
def pyCapitalizeVal (v : PyVal) : Except PyErr String :=
  match v with
  | .str s => .ok (pyCapitalize s)
  | _ => .error (.attributeError (v.typeName ++ " object has no attribute capitalize"))

/-- Python == between a value and a string literal, as the formatters use it:
true exactly for the equal string (a non-string never equals a string). -/
def pyEqStr (v : PyVal) (s : String) : Bool :=
  match v with
  | .str t => t == s
  | _ => false

/-- Python iteration (for x in v): lists yield their items, strings their
characters, dicts their keys; other values are not iterable. -/
def pyIter (v : PyVal) : Except PyErr (List PyVal) :=
  match v with
  | .list items => .ok items
  | .str s => .ok (s.data.map (fun c => .str (String.singleton c)))
  | .dict fields => .ok (fields.map (fun kv => .str kv.1))
  | _ => .error (.typeError (v.typeName ++ " object is not iterable"))

/-- handle_commit_comment_event from src/main.py: the lines it prints, or the
error it raises unhandled. -/
def handle_commit_comment_event (event : PyVal) : Except PyErr (List String) := do
  let repo ← (← event.get "repo" (.dict [])).get "name" (.str "Unknown")
  let commit_id ← (← (← event.get "payload" (.dict [])).get "comment" (.dict [])).get "commit_id" (.str "Unknown")
  let comment_text ← (← (← event.get "payload" (.dict [])).get "comment" (.dict [])).get "body" (.str "No Comment")
  let cid7 ← pySlice commit_id 7
  let body50 ← pySlice comment_text 50
  pure [s!"- Commented on commit {pyStr cid7} in {pyStr repo}: {pyStr body50}"]

/-- handle_create_event from src/main.py.  Note event.get("payload") has no
default: an absent payload yields None, whose .get raises AttributeError. -/
def handle_create_event (event : PyVal) : Except PyErr (List String) := do
  let repo ← (← event.get "repo" (.dict [])).get "name" (.str "Unknown")
  let ref_type ← (← event.get "payload" .none).get "ref_type" .none
  let ref ← (← event.get "payload" .none).get "ref" .none
  if pyEqStr ref_type "repository" then
    pure [s!"- Created repo: {pyStr repo}"]
  else if (pyEqStr ref_type "branch" || pyEqStr ref_type "tag") && pyTruthy ref then
    pure [s!"- Created {pyStr ref_type} '{pyStr ref}' in {pyStr repo}"]
  else
    pure [s!"- Created {pyStr ref_type} in {pyStr repo}"]

/-- handle_delete_event from src/main.py (payload also fetched without a
default). -/
def handle_delete_event (event : PyVal) : Except PyErr (List String) := do
  let repo ← (← event.get "repo" (.dict [])).get "name" (.str "Unknown")
  let ref_type ← (← event.get "payload" .none).get "ref_type" .none
  if pyEqStr ref_type "repository" then
    pure [s!"- Deleted repo: {pyStr repo}"]
  else
    pure [s!"- Deleted {pyStr ref_type} in {pyStr repo}"]

/-- handle_fork_event from src/main.py. -/
def handle_fork_event (event : PyVal) : Except PyErr (List String) := do
  let repo ← (← event.get "repo" (.dict [])).get "name" (.str "Unknown")
  pure [s!"- Forked repo {pyStr repo}"]

/-- The loop body of handle_gollum_event: the line printed for each dict page
(others are skipped) and, when a page raises, the error; the lines already
printed before the error are kept. -/
def gollumLoop : List PyVal → List String × Option PyErr
  | [] => ([], Option.none)
  | page :: rest =>
    match page with
    | .dict fields =>
      let page_title := (lookupKey fields "title").getD (.str "Unknown")
      let page_action := (lookupKey fields "action").getD (.str "Unknown")
      match pyCapitalizeVal page_action with
      | .error err => ([], some err)
      | .ok capAction =>
        let (lines, err?) := gollumLoop rest
        (s!"- {capAction} wiki page '{pyStr page_title}'" :: lines, err?)
    | _ => gollumLoop rest

/-- handle_gollum_event from src/main.py: the whole body runs under
try/except Exception, so any internal failure is caught and one error line is
printed instead; the handler itself never raises. -/
def handle_gollum_event (event : PyVal) : Except PyErr (List String) :=
  match (do
    let payload ← event.get "payload" (.dict [])
    let pages ← payload.get "pages" (.list [])
    pyIter pages : Except PyErr (List PyVal)) with
  | .error err => .ok [s!"- Could not process wiki event: {pyErrStr err}"]
  | .ok pageList =>
    match gollumLoop pageList with
    | (lines, Option.none) => .ok lines
    | (lines, some err) => .ok (lines ++ [s!"- Could not process wiki event: {pyErrStr err}"])

/-- handle_issue_comment_event from src/main.py.  Note the issue lookup
defaults to the empty string, whose .get raises AttributeError. -/
def handle_issue_comment_event (event : PyVal) : Except PyErr (List String) := do
  let repo ← (← event.get "repo" (.dict [])).get "name" (.str "Unknown")
  let action ← (← event.get "payload" (.dict [])).get "action" (.str "")
  let issue_title ← (← (← event.get "payload" (.dict [])).get "issue" (.str "")).get "title" (.str "")
  let comment_body ← pySlice (← (← (← event.get "payload" (.dict [])).get "comment" (.dict [])).get "body" (.str "")) 50
  let capAction ← pyCapitalizeVal action
  pure [s!"- {capAction} comment '{pyStr issue_title}' in {pyStr repo}: {pyStr comment_body}"]

/-- handle_issues_event from src/main.py (issue defaults to the string
"unknown", whose .get raises AttributeError). -/
def handle_issues_event (event : PyVal) : Except PyErr (List String) := do
  let repo ← (← event.get "repo" (.dict [])).get "name" (.str "Unknown")
  let action ← (← event.get "payload" (.dict [])).get "action" (.str "")
  let issue ← (← (← event.get "payload" (.dict [])).get "issue" (.str "unknown")).get "title" (.str "")
  let capAction ← pyCapitalizeVal action
  pure [s!"- {capAction} issue in {pyStr repo}: {pyStr issue}"]

/-- handle_member_event from src/main.py: three fixed messages keyed by the
action, with a fallback; the dict lookup with the action as key raises
TypeError on unhashable actions. -/
def handle_member_event (event : PyVal) : Except PyErr (List String) := do
  let repo ← (← event.get "repo" (.dict [])).get "name" (.str "Unknown")
  let action ← (← event.get "payload" (.dict [])).get "action" (.str "")
  let member ← (← (← event.get "payload" (.dict [])).get "member" (.dict [])).get "login" (.str "Unknown")
  let action_messages : List (String × String) := [
    ("added", s!"- Added {pyStr member} as collaborator to {pyStr repo}"),
    ("removed", s!"- Removed {pyStr member} from {pyStr repo}"),
    ("edited", s!"- Changed {pyStr member}'s permissions on {pyStr repo}")]
  match action with
  | .str a => pure [(lookupKey action_messages a).getD s!"- {pyStr action} {pyStr member} on {pyStr repo}"]
  | .list _ => .error (.typeError "unhashable type: list")
  | .dict _ => .error (.typeError "unhashable type: dict")
  | _ => pure [s!"- {pyStr action} {pyStr member} on {pyStr repo}"]

/-- handle_public_event from src/main.py. -/
def handle_public_event (event : PyVal) : Except PyErr (List String) := do
  let repo ← (← event.get "repo" (.dict [])).get "name" (.str "Unknown")
  pure [s!"- Made {pyStr repo} public"]

/-- handle_pull_request_event from src/main.py (pull_request defaults to the
string "unknown", whose .get raises AttributeError; the action is not
capitalized here). -/
def handle_pull_request_event (event : PyVal) : Except PyErr (List String) := do
  let repo ← (← event.get "repo" (.dict [])).get "name" (.str "Unknown")
  let action ← (← event.get "payload" (.dict [])).get "action" (.str "")
  let pull_request ← (← (← event.get "payload" (.dict [])).get "pull_request" (.str "unknown")).get "title" (.str "")
  pure [s!"- Pull request {pyStr action} on {pyStr repo}: {pyStr pull_request}"]

/-- handle_pull_request_review_event from src/main.py (the line ends in a
space, preserved). -/
def handle_pull_request_review_event (event : PyVal) : Except PyErr (List String) := do
  let repo ← (← event.get "repo" (.dict [])).get "name" (.str "Unknown")
  let action ← (← event.get "payload" (.dict [])).get "action" (.str "")
  let capAction ← pyCapitalizeVal action
  pure [s!"- {capAction} PR in {pyStr repo} "]

/-- handle_pull_request_review_comment_event from src/main.py. -/
def handle_pull_request_review_comment_event (event : PyVal) : Except PyErr (List String) := do
  let repo ← (← event.get "repo" (.dict [])).get "name" (.str "Unknown")
  let action ← (← event.get "payload" (.dict [])).get "action" (.str "")
  let comment_text ← pySlice (← (← (← event.get "payload" (.dict [])).get "comment" (.dict [])).get "body" (.str "")) 50
  let pr_title ← (← (← event.get "payload" (.dict [])).get "pull_request" (.dict [])).get "title" (.str "")
  let capAction ← pyCapitalizeVal action
  pure [s!"- {capAction} review comment on PR '{pyStr pr_title}' in {pyStr repo}: {pyStr comment_text}"]

/-- handle_pull_request_review_thread_event from src/main.py (pull_request
defaults to the string "unknown", whose .get raises AttributeError). -/
def handle_pull_request_review_thread_event (event : PyVal) : Except PyErr (List String) := do
  let repo ← (← event.get "repo" (.dict [])).get "name" (.str "Unknown")
  let action ← (← event.get "payload" (.dict [])).get "action" (.str "")
  let pull_request ← (← (← event.get "payload" (.dict [])).get "pull_request" (.str "unknown")).get "title" (.str "")
  let capAction ← pyCapitalizeVal action
  pure [s!"- {capAction} review thread on PR '{pyStr pull_request}' in {pyStr repo}"]

/-- handle_push_event from src/main.py: commit count with the trailing s
exactly when the count differs from one. -/
def handle_push_event (event : PyVal) : Except PyErr (List String) := do
  let repo ← (← event.get "repo" (.dict [])).get "name" (.str "Unknown")
  let commits ← pyLen (← (← event.get "payload" (.dict [])).get "commits" (.list []))
  pure [s!"- Pushed {commits} commit" ++ (if commits != 1 then "s" else "") ++ s!" to {pyStr repo}"]

/-- handle_release_event from src/main.py. -/
def handle_release_event (event : PyVal) : Except PyErr (List String) := do
  let repo ← (← event.get "repo" (.dict [])).get "name" (.str "Unknown")
  let action ← (← event.get "payload" (.dict [])).get "action" (.str "")
  let release ← (← (← event.get "payload" (.dict [])).get "release" (.dict [])).get "name" (.str "")
  let capAction ← pyCapitalizeVal action
  pure [s!"- {capAction} {pyStr release} of {pyStr repo}"]

/-- handle_sponsorship_event from src/main.py: a match on the action string
with a catch-all. -/
def handle_sponsorship_event (event : PyVal) : Except PyErr (List String) := do
  let action ← (← event.get "payload" (.dict [])).get "action" (.str "unknown")
  let sponsor ← (← (← (← event.get "payload" (.dict [])).get "sponsorship" (.dict [])).get "sponsor" (.dict [])).get "login" (.str "Unknown")
  let sponsorable ← (← (← (← event.get "payload" (.dict [])).get "sponsorship" (.dict [])).get "sponsorable" (.dict [])).get "login" (.str "Unknown")
  if pyEqStr action "created" then
    pure [s!"- {pyStr sponsor} just started sponsoring {pyStr sponsorable}!"]
  else if pyEqStr action "cancelled" then
    pure [s!"- {pyStr sponsor} cancelled their sponsorship of {pyStr sponsorable}"]
  else if pyEqStr action "tier_changed" then
    pure [s!"- {pyStr sponsor} changed their sponsorship tier for {pyStr sponsorable}"]
  else
    pure [s!"- {pyStr sponsor} {pyStr action} sponsorship of {pyStr sponsorable}"]

/-- handle_watch_event from src/main.py. -/
def handle_watch_event (event : PyVal) : Except PyErr (List String) := do
  let repo ← (← event.get "repo" (.dict [])).get "name" (.str "Unknown")
  pure [s!"- Starred {pyStr repo}"]

/-- The type of one event formatter. -/
abbrev Handler := PyVal → Except PyErr (List String)

/-- get_event_handlers from src/main.py: the fixed 17-entry dispatch table. -/
def get_event_handlers : List (String × Handler) := [
  ("CommitCommentEvent", handle_commit_comment_event),
  ("CreateEvent", handle_create_event),
  ("DeleteEvent", handle_delete_event),
  ("ForkEvent", handle_fork_event),
  ("GollumEvent", handle_gollum_event),
  ("IssueCommentEvent", handle_issue_comment_event),
  ("IssuesEvent", handle_issues_event),
  ("MemberEvent", handle_member_event),
  ("PublicEvent", handle_public_event),
  ("PullRequestEvent", handle_pull_request_event),
  ("PullRequestReviewEvent", handle_pull_request_review_event),
  ("PullRequestReviewCommentEvent", handle_pull_request_review_comment_event),
  ("PullRequestReviewThreadEvent", handle_pull_request_review_thread_event),
  ("PushEvent", handle_push_event),
  ("ReleaseEvent", handle_release_event),
  ("SponsorshipEvent", handle_sponsorship_event),
  ("WatchEvent", handle_watch_event)]

/-- handlers.get(event_type): a dict lookup whose key is a PyVal; unhashable
keys (lists, dicts) raise TypeError, other non-string keys are simply not in
the table. -/
def handlersGet (v : PyVal) : Except PyErr (Option Handler) :=
  match v with
  | .str s => .ok (lookupKey get_event_handlers s)
  | .list _ => .error (.typeError "unhashable type: list")
  | .dict _ => .error (.typeError "unhashable type: dict")
  | _ => .ok Option.none

/-- One iteration of main's event loop: look up the handler for event.type
(defaulting to the empty string) and run it; a missing entry prints the
fallback line. -/
def handleEvent (event : PyVal) : Except PyErr (List String) := do
  let event_type ← event.get "type" (.str "")
  match ← handlersGet event_type with
  | some event_handler => event_handler event
  | Option.none => pure ["- Unknown Event"]

/-- main's loop over the fetched events: all lines printed, and the unhandled
error that aborted the loop, if any (lines printed before it are kept). -/
def runEvents : List PyVal → List String × Option PyErr
  | [] => ([], Option.none)
  | e :: rest =>
    match handleEvent e with
    | .error err => ([], some err)
    | .ok ls =>
      let (more, err?) := runEvents rest
      (ls ++ more, err?)

/-- Outcome of the single HTTP GET in get_response: a connection-level
failure with its error text, or a response with its status code, the text of
the HTTPError that raise_for_status would raise for it, and the parsed JSON
body. -/
inductive HttpOutcome where
  | connectionError (errText : String)
  | response (status : Nat) (errText : String) (body : PyVal)

/-- get_response from src/main.py.  requests' raise_for_status raises
HTTPError exactly for statuses 400-599; the except clauses map 404 and 403 to
fixed SystemExit messages, other HTTP errors and connection errors exit with
the underlying error text.  The error carries the SystemExit message: the
process exits non-zero before any formatting happens. -/
def get_response (username : String) (outcome : HttpOutcome) : Except String PyVal :=
  match outcome with
  | .connectionError errText => .error errText
  | .response status errText body =>
    if 400 ≤ status ∧ status < 600 then
      if status = 404 then .error s!"User '{username}' not found"
      else if status = 403 then .error "Rate limit exceeded or access forbidden"
      else .error errText
    else .ok body

/-- How a whole run ends: terminated by the fetcher with a SystemExit message
(non-zero exit, no formatter output), crashed on an unhandled formatter error
(after printing the given lines), or finished normally with its lines. -/
inductive RunResult where
  | terminated (msg : String)
  | crashed (lines : List String) (err : PyErr)
  | finished (lines : List String)
deriving DecidableEq

/-- main from src/main.py as a function of the HTTP outcome: fetch, then
dispatch each returned event record to its handler in order. -/
def mainRun (username : String) (outcome : HttpOutcome) : RunResult :=
  match get_response username outcome with
  | .error msg => .terminated msg
  | .ok body =>
    match pyIter body with
    | .error err => .crashed [] err
    | .ok events =>
      match runEvents events with
      | (lines, Option.none) => .finished lines
      | (lines, some err) => .crashed lines err

deriving instance DecidableEq for Except

/-- Capitalization as the specification is amended to state it: the first
character uppercased and every remaining character lowercased. -/
def capFirstLowerRest (s : String) : String :=
  match s.data with
  | [] => ""
  | c :: cs => String.mk (Char.toUpper c :: cs.map Char.toLower)

/-- The CreateEvent line as the claim states it, selecting among the three
branches by ref_type and the presence of a non-empty ref. -/
def createLineSpec (repo ref_type : String) (ref : Option String) : String :=
  let rv := ref.getD ""
  if ref_type = "repository" then s!"- Created repo: {repo}"
  else if (ref_type = "branch" ∨ ref_type = "tag") ∧ rv ≠ "" then
    s!"- Created {ref_type} '{rv}' in {repo}"
  else s!"- Created {ref_type} in {repo}"

/-- A pages entry whose formatting cannot fail: either not a dict (it is
skipped), or a dict whose action field is absent or a string. -/
def pageActionOk (p : PyVal) : Bool :=
  match p with
  | .dict fields =>
    match lookupKey fields "action" with
    | some (PyVal.str _) => true
    | some _ => false
    | Option.none => true
  | _ => true

/-- The line the claim states for one pages entry: an object entry yields one
line with the capitalized action and the title, any other entry none. -/
def gollumSpecLine (p : PyVal) : Option String :=
  match p with
  | .dict fields =>
    let title := (lookupKey fields "title").getD (PyVal.str "Unknown")
    let actionStr := match lookupKey fields "action" with
      | some (PyVal.str s) => s
      | _ => "Unknown"
    some s!"- {pyCapitalize actionStr} wiki page '{pyStr title}'"
  | _ => Option.none

/-- A formatter result that prints exactly one line whenever it succeeds. -/
def oneLine (m : Except PyErr (List String)) : Prop :=
  ∀ ls, m = .ok ls → ls.length = 1

/-- Whether a value is an object (a Python dict). -/
def isObj (p : PyVal) : Bool :=
  match p with
  | .dict _ => true
  | _ => false

end GithubActivity

namespace GithubActivity

set_option maxRecDepth 10000
set_option maxHeartbeats 1000000

/-- C10: an empty CommitCommentEvent record formats with the default
"Unknown" for the commit id (sliced to its first 7 characters, which is
"Unknown" again) and the default "No Comment" for the comment body. -/
theorem commit_comment_defaults :
    handle_commit_comment_event (PyVal.dict [])
      = .ok ["- Commented on commit Unknown in Unknown: No Comment"] := by
  decide

/-- C1: contrary to the claim (and to the spec's invariant), six formatters
raise an unhandled AttributeError instead of formatting a line when the
payload key is entirely absent: CreateEvent and DeleteEvent fetch payload
with no default (None has no .get), and the IssueComment/Issues/PullRequest/
PullRequestReviewThread formatters default the issue or pull_request
sub-object to a plain string, whose .get also raises. -/
theorem payload_absent_raises :
    handle_create_event (PyVal.dict [])
      = .error (.attributeError "NoneType object has no attribute get")
    ∧ handle_delete_event (PyVal.dict [])
      = .error (.attributeError "NoneType object has no attribute get")
    ∧ handle_issue_comment_event (PyVal.dict [])
      = .error (.attributeError "str object has no attribute get")
    ∧ handle_issues_event (PyVal.dict [])
      = .error (.attributeError "str object has no attribute get")
    ∧ handle_pull_request_event (PyVal.dict [])
      = .error (.attributeError "str object has no attribute get")
    ∧ handle_pull_request_review_thread_event (PyVal.dict [])
      = .error (.attributeError "str object has no attribute get") :=
  ⟨by decide, by decide, by decide, by decide, by decide, by decide⟩

/-- C2 counterexample: the mixed-case action "reOpened" renders as
"Reopened" (rest lowercased), not "ReOpened" (rest unchanged) as the claim
states. -/
theorem capitalize_rest_unchanged_counterexample :
    handle_pull_request_review_event
      (PyVal.dict [("payload", PyVal.dict [("action", PyVal.str "reOpened")])])
      = .ok ["- Reopened PR in Unknown "]
    ∧ "- Reopened PR in Unknown " ≠ "- ReOpened PR in Unknown " :=
  ⟨by decide, by decide⟩

/-- C2 (amended): the capitalization applied to every rendered action string
is "first character uppercased, all remaining characters lowercased". -/
theorem capitalize_first_upper_rest_lower :
    (∀ s : String, pyCapitalize s = capFirstLowerRest s)
    ∧ ∀ (a r : String),
      handle_pull_request_review_event
        (PyVal.dict [("repo", PyVal.dict [("name", PyVal.str r)]),
          ("payload", PyVal.dict [("action", PyVal.str a)])])
        = .ok [s!"- {capFirstLowerRest a} PR in {r} "] := by
  refine ⟨fun s => rfl, fun a r => ?_⟩
  simp [handle_pull_request_review_event, PyVal.get, lookupKey, pyCapitalizeVal,
    pyStr, pyCapitalize, capFirstLowerRest, Bind.bind, Except.bind, Pure.pure, Except.pure]

/-- C3 counterexample: a non-2xx status outside 400-599 (here 304) does not
terminate the run — raise_for_status raises only for 4xx/5xx — so the body is
formatted, contradicting "any other non-2xx status terminates". -/
theorem non2xx_without_error_counterexample :
    mainRun "octocat" (HttpOutcome.response 304 "304 Not Modified" (PyVal.list []))
      = RunResult.finished [] := by
  decide

/-- C3 (amended): connection failures terminate with the underlying error
text, 404 with the user-not-found message, 403 with the fixed rate-limit
message, and every other 4xx or 5xx status with the underlying error text;
statuses outside 400-599 do not terminate.  A terminated run exits non-zero
before any formatting. -/
theorem fetcher_error_mapping :
    (∀ u t : String, mainRun u (.connectionError t) = .terminated t)
    ∧ (∀ (u t : String) (b : PyVal),
        mainRun u (.response 404 t b) = .terminated s!"User '{u}' not found")
    ∧ (∀ (u t : String) (b : PyVal),
        mainRun u (.response 403 t b) = .terminated "Rate limit exceeded or access forbidden")
    ∧ (∀ (u t : String) (b : PyVal) (status : Nat),
        400 ≤ status → status < 600 → status ≠ 404 → status ≠ 403 →
        mainRun u (.response status t b) = .terminated t) := by
  refine ⟨fun u t => rfl, fun u t b => by simp [mainRun, get_response],
    fun u t b => by simp [mainRun, get_response], fun u t b status h1 h2 h3 h4 => ?_⟩
  simp [mainRun, get_response, h1, h2, h3, h4]

/-- C3 witness: a 500 response terminates with the underlying error text. -/
theorem fetcher_error_mapping_witness :
    mainRun "octocat" (.response 500 "500 Server Error" (PyVal.list []))
      = .terminated "500 Server Error" :=
  fetcher_error_mapping.2.2.2 "octocat" "500 Server Error" (PyVal.list []) 500
    (by decide) (by decide) (by decide) (by decide)

/-- C4: a PushEvent line shows the length of payload.commits (0 when commits
is absent) and the trailing s exactly when that length differs from 1. -/
theorem push_event_commit_count (r : String) (cs : List PyVal) :
    handle_push_event
      (PyVal.dict [("repo", PyVal.dict [("name", PyVal.str r)]),
        ("payload", PyVal.dict [("commits", PyVal.list cs)])])
      = .ok [s!"- Pushed {cs.length} commit"
          ++ (if cs.length ≠ 1 then "s" else "") ++ s!" to {r}"]
    ∧ handle_push_event (PyVal.dict [("repo", PyVal.dict [("name", PyVal.str r)])])
      = .ok ["- Pushed 0 commits to " ++ r] := by
  constructor
  · simp [handle_push_event, PyVal.get, lookupKey, pyLen, pyStr, Bind.bind, Except.bind,
      Pure.pure, Except.pure, ne_eq]
  · simp [handle_push_event, PyVal.get, lookupKey, pyLen, pyStr, Bind.bind, Except.bind,
      Pure.pure, Except.pure]
    have h0 : toString (0 : Nat) = "0" := rfl
    simp only [h0, ToString.toString, instToStringString, String.append_empty,
      ← String.append_assoc]
    rfl

theorem oneLine_bind {α : Type} (x : Except PyErr α) (f : α → Except PyErr (List String))
    (hf : ∀ a, oneLine (f a)) : oneLine (x >>= f) := by
  intro ls h
  cases x with
  | error e => simp [Bind.bind, Except.bind] at h
  | ok a => exact hf a ls (by simpa [Bind.bind, Except.bind] using h)

theorem oneLine_pure (l : String) : oneLine (pure [l]) := by
  intro ls h
  simp [Pure.pure, Except.pure] at h
  subst h
  rfl

theorem oneLine_error (e : PyErr) : oneLine (.error e) :=
  fun _ h => Except.noConfusion h

theorem oneLine_ite (c : Prop) [Decidable c] (t e : Except PyErr (List String))
    (ht : oneLine t) (he : oneLine e) : oneLine (if c then t else e) := by
  split
  · exact ht
  · exact he

theorem handle_commit_comment_event_oneLine (event : PyVal) :
    oneLine (handle_commit_comment_event event) := by
  unfold handle_commit_comment_event
  repeat first
    | exact oneLine_pure _
    | refine oneLine_bind _ _ fun a => ?_

theorem handle_create_event_oneLine (event : PyVal) :
    oneLine (handle_create_event event) := by
  unfold handle_create_event
  repeat first
    | exact oneLine_pure _
    | refine oneLine_ite _ _ _ ?_ ?_
    | refine oneLine_bind _ _ fun a => ?_

theorem handle_delete_event_oneLine (event : PyVal) :
    oneLine (handle_delete_event event) := by
  unfold handle_delete_event
  repeat first
    | exact oneLine_pure _
    | refine oneLine_ite _ _ _ ?_ ?_
    | refine oneLine_bind _ _ fun a => ?_

theorem handle_fork_event_oneLine (event : PyVal) :
    oneLine (handle_fork_event event) := by
  unfold handle_fork_event
  repeat first
    | exact oneLine_pure _
    | refine oneLine_bind _ _ fun a => ?_

theorem handle_issue_comment_event_oneLine (event : PyVal) :
    oneLine (handle_issue_comment_event event) := by
  unfold handle_issue_comment_event
  repeat first
    | exact oneLine_pure _
    | refine oneLine_bind _ _ fun a => ?_

theorem handle_issues_event_oneLine (event : PyVal) :
    oneLine (handle_issues_event event) := by
  unfold handle_issues_event
  repeat first
    | exact oneLine_pure _
    | refine oneLine_bind _ _ fun a => ?_

theorem handle_member_event_oneLine (event : PyVal) :
    oneLine (handle_member_event event) := by
  unfold handle_member_event
  refine oneLine_bind _ _ fun x1 => oneLine_bind _ _ fun repo =>
    oneLine_bind _ _ fun x2 => oneLine_bind _ _ fun action =>
    oneLine_bind _ _ fun x3 => oneLine_bind _ _ fun x4 =>
    oneLine_bind _ _ fun member => ?_
  cases action <;> first
    | exact oneLine_pure _
    | exact oneLine_error _

theorem handle_public_event_oneLine (event : PyVal) :
    oneLine (handle_public_event event) := by
  unfold handle_public_event
  repeat first
    | exact oneLine_pure _
    | refine oneLine_bind _ _ fun a => ?_

theorem handle_pull_request_event_oneLine (event : PyVal) :
    oneLine (handle_pull_request_event event) := by
  unfold handle_pull_request_event
  repeat first
    | exact oneLine_pure _
    | refine oneLine_bind _ _ fun a => ?_

theorem handle_pull_request_review_event_oneLine (event : PyVal) :
    oneLine (handle_pull_request_review_event event) := by
  unfold handle_pull_request_review_event
  repeat first
    | exact oneLine_pure _
    | refine oneLine_bind _ _ fun a => ?_

theorem handle_pull_request_review_comment_event_oneLine (event : PyVal) :
    oneLine (handle_pull_request_review_comment_event event) := by
  unfold handle_pull_request_review_comment_event
  repeat first
    | exact oneLine_pure _
    | refine oneLine_bind _ _ fun a => ?_

theorem handle_pull_request_review_thread_event_oneLine (event : PyVal) :
    oneLine (handle_pull_request_review_thread_event event) := by
  unfold handle_pull_request_review_thread_event
  repeat first
    | exact oneLine_pure _
    | refine oneLine_bind _ _ fun a => ?_

theorem handle_push_event_oneLine (event : PyVal) :
    oneLine (handle_push_event event) := by
  unfold handle_push_event
  repeat first
    | exact oneLine_pure _
    | refine oneLine_bind _ _ fun a => ?_

theorem handle_release_event_oneLine (event : PyVal) :
    oneLine (handle_release_event event) := by
  unfold handle_release_event
  repeat first
    | exact oneLine_pure _
    | refine oneLine_bind _ _ fun a => ?_

theorem handle_sponsorship_event_oneLine (event : PyVal) :
    oneLine (handle_sponsorship_event event) := by
  unfold handle_sponsorship_event
  repeat first
    | exact oneLine_pure _
    | refine oneLine_ite _ _ _ ?_ ?_
    | refine oneLine_bind _ _ fun a => ?_

theorem handle_watch_event_oneLine (event : PyVal) :
    oneLine (handle_watch_event event) := by
  unfold handle_watch_event
  repeat first
    | exact oneLine_pure _
    | refine oneLine_bind _ _ fun a => ?_

theorem lookupKey_mem {α : Type} (l : List (String × α)) (key : String) (v : α)
    (h : lookupKey l key = some v) : (key, v) ∈ l := by
  induction l with
  | nil => simp [lookupKey] at h
  | cons p rest ih =>
    obtain ⟨k, w⟩ := p
    by_cases hk : k = key
    · subst hk
      simp [lookupKey] at h
      subst h
      exact List.mem_cons_self _ _
    · simp [lookupKey, hk] at h
      exact List.mem_cons_of_mem _ (ih h)

theorem lookup_handler_oneLine (s : String) (hd : Handler) (hne : s ≠ "GollumEvent")
    (hl : lookupKey get_event_handlers s = some hd) (e : PyVal) : oneLine (hd e) := by
  have hmem := lookupKey_mem _ _ _ hl
  simp only [get_event_handlers, List.mem_cons, Prod.mk.injEq, List.not_mem_nil,
    or_false] at hmem
  rcases hmem with hc1 | hc2 | hc3 | hc4 | hc5 | hc6 | hc7 | hc8 | hc9 | hc10 | hc11 | hc12 | hc13 | hc14 | hc15 | hc16 | hc17
  · obtain ⟨rfl, rfl⟩ := hc1
    exact handle_commit_comment_event_oneLine e
  · obtain ⟨rfl, rfl⟩ := hc2
    exact handle_create_event_oneLine e
  · obtain ⟨rfl, rfl⟩ := hc3
    exact handle_delete_event_oneLine e
  · obtain ⟨rfl, rfl⟩ := hc4
    exact handle_fork_event_oneLine e
  · obtain ⟨rfl, rfl⟩ := hc5
    exact absurd rfl hne
  · obtain ⟨rfl, rfl⟩ := hc6
    exact handle_issue_comment_event_oneLine e
  · obtain ⟨rfl, rfl⟩ := hc7
    exact handle_issues_event_oneLine e
  · obtain ⟨rfl, rfl⟩ := hc8
    exact handle_member_event_oneLine e
  · obtain ⟨rfl, rfl⟩ := hc9
    exact handle_public_event_oneLine e
  · obtain ⟨rfl, rfl⟩ := hc10
    exact handle_pull_request_event_oneLine e
  · obtain ⟨rfl, rfl⟩ := hc11
    exact handle_pull_request_review_event_oneLine e
  · obtain ⟨rfl, rfl⟩ := hc12
    exact handle_pull_request_review_comment_event_oneLine e
  · obtain ⟨rfl, rfl⟩ := hc13
    exact handle_pull_request_review_thread_event_oneLine e
  · obtain ⟨rfl, rfl⟩ := hc14
    exact handle_push_event_oneLine e
  · obtain ⟨rfl, rfl⟩ := hc15
    exact handle_release_event_oneLine e
  · obtain ⟨rfl, rfl⟩ := hc16
    exact handle_sponsorship_event_oneLine e
  · obtain ⟨rfl, rfl⟩ := hc17
    exact handle_watch_event_oneLine e

theorem handleEvent_ok_oneLine (e : PyVal) (ls : List String)
    (h : handleEvent e = .ok ls)
    (hne : e.get "type" (.str "") ≠ .ok (PyVal.str "GollumEvent")) : ls.length = 1 := by
  unfold handleEvent at h
  cases hty : e.get "type" (.str "") with
  | error err => rw [hty] at h; simp [Bind.bind, Except.bind] at h
  | ok t =>
    rw [hty] at h
    simp only [Bind.bind, Except.bind] at h
    cases t with
    | str s =>
      have hs : s ≠ "GollumEvent" := by
        intro hsg
        exact hne (by rw [hty, hsg])
      simp only [handlersGet] at h
      cases hl : lookupKey get_event_handlers s with
      | none =>
        rw [hl] at h
        simp [Pure.pure, Except.pure] at h
        simp [← h]
      | some hd =>
        rw [hl] at h
        exact lookup_handler_oneLine s hd hs hl e ls h
    | none =>
      simp only [handlersGet, Pure.pure, Except.pure] at h
      simp at h
      simp [← h]
    | bool b =>
      simp only [handlersGet, Pure.pure, Except.pure] at h
      simp at h
      simp [← h]
    | int n =>
      simp only [handlersGet, Pure.pure, Except.pure] at h
      simp at h
      simp [← h]
    | list items => simp [handlersGet] at h
    | dict fields => simp [handlersGet] at h

theorem gollumLoop_ok (ps : List PyVal) (h : ∀ p ∈ ps, pageActionOk p = true) :
    gollumLoop ps = (ps.filterMap gollumSpecLine, Option.none) := by
  induction ps with
  | nil => rfl
  | cons p rest ih =>
    have hp := h p (List.mem_cons_self p rest)
    have hrest : ∀ q ∈ rest, pageActionOk q = true :=
      fun q hq => h q (List.mem_cons_of_mem p hq)
    cases p with
    | dict fields =>
      cases ha : lookupKey fields "action" with
      | none => simp [gollumLoop, gollumSpecLine, ha, pyCapitalizeVal, ih hrest]
      | some av =>
        cases av with
        | str a => simp [gollumLoop, gollumSpecLine, ha, pyCapitalizeVal, ih hrest]
        | none => simp [pageActionOk, ha] at hp
        | bool b => simp [pageActionOk, ha] at hp
        | int n => simp [pageActionOk, ha] at hp
        | list l => simp [pageActionOk, ha] at hp
        | dict d => simp [pageActionOk, ha] at hp
    | none => simp [gollumLoop, gollumSpecLine, ih hrest]
    | bool b => simp [gollumLoop, gollumSpecLine, ih hrest]
    | int n => simp [gollumLoop, gollumSpecLine, ih hrest]
    | str s2 => simp [gollumLoop, gollumSpecLine, ih hrest]
    | list l => simp [gollumLoop, gollumSpecLine, ih hrest]

theorem gollum_never_raises (e : PyVal) : ∃ ls, handle_gollum_event e = .ok ls := by
  unfold handle_gollum_event
  split
  · exact ⟨_, rfl⟩
  · split
    · exact ⟨_, rfl⟩
    · exact ⟨_, rfl⟩

theorem gollum_pages_ok (ps : List PyVal) (others : List (String × PyVal))
    (h : ∀ p ∈ ps, pageActionOk p = true) :
    handle_gollum_event
      (PyVal.dict (("payload", PyVal.dict [("pages", PyVal.list ps)]) :: others))
      = .ok (ps.filterMap gollumSpecLine) := by
  unfold handle_gollum_event
  simp [PyVal.get, lookupKey, pyIter, Bind.bind, Except.bind, gollumLoop_ok ps h]

theorem gollumLoop_append_ok (ps₁ rest : List PyVal)
    (h : ∀ p ∈ ps₁, pageActionOk p = true) :
    gollumLoop (ps₁ ++ rest)
      = (ps₁.filterMap gollumSpecLine ++ (gollumLoop rest).1, (gollumLoop rest).2) := by
  induction ps₁ with
  | nil => simp [gollumLoop]
  | cons p t ih =>
    have hp := h p (List.mem_cons_self p t)
    have ht : ∀ q ∈ t, pageActionOk q = true :=
      fun q hq => h q (List.mem_cons_of_mem p hq)
    cases p with
    | dict fields =>
      cases ha : lookupKey fields "action" with
      | none => simp [gollumLoop, gollumSpecLine, ha, pyCapitalizeVal, ih ht]
      | some av =>
        cases av with
        | str a => simp [gollumLoop, gollumSpecLine, ha, pyCapitalizeVal, ih ht]
        | none => simp [pageActionOk, ha] at hp
        | bool b => simp [pageActionOk, ha] at hp
        | int n => simp [pageActionOk, ha] at hp
        | list l => simp [pageActionOk, ha] at hp
        | dict d => simp [pageActionOk, ha] at hp
    | none => simp [gollumLoop, gollumSpecLine, ih ht]
    | bool b => simp [gollumLoop, gollumSpecLine, ih ht]
    | int n => simp [gollumLoop, gollumSpecLine, ih ht]
    | str s2 => simp [gollumLoop, gollumSpecLine, ih ht]
    | list l => simp [gollumLoop, gollumSpecLine, ih ht]

theorem gollumLoop_first_bad (b : PyVal) (ps₂ : List PyVal)
    (hb : pageActionOk b = false) :
    ∃ err, gollumLoop (b :: ps₂) = ([], some err) := by
  cases b with
  | dict fields =>
    cases ha : lookupKey fields "action" with
    | none => simp [pageActionOk, ha] at hb
    | some av =>
      cases av with
      | str a => simp [pageActionOk, ha] at hb
      | none =>
        refine ⟨PyErr.attributeError
          (PyVal.typeName PyVal.none ++ " object has no attribute capitalize"), ?_⟩
        simp [gollumLoop, ha, pyCapitalizeVal]
      | bool b2 =>
        refine ⟨PyErr.attributeError
          (PyVal.typeName (PyVal.bool b2) ++ " object has no attribute capitalize"), ?_⟩
        simp [gollumLoop, ha, pyCapitalizeVal]
      | int n =>
        refine ⟨PyErr.attributeError
          (PyVal.typeName (PyVal.int n) ++ " object has no attribute capitalize"), ?_⟩
        simp [gollumLoop, ha, pyCapitalizeVal]
      | list l =>
        refine ⟨PyErr.attributeError
          (PyVal.typeName (PyVal.list l) ++ " object has no attribute capitalize"), ?_⟩
        simp [gollumLoop, ha, pyCapitalizeVal]
      | dict d =>
        refine ⟨PyErr.attributeError
          (PyVal.typeName (PyVal.dict d) ++ " object has no attribute capitalize"), ?_⟩
        simp [gollumLoop, ha, pyCapitalizeVal]
  | none => simp [pageActionOk] at hb
  | bool b2 => simp [pageActionOk] at hb
  | int n => simp [pageActionOk] at hb
  | str s2 => simp [pageActionOk] at hb
  | list l => simp [pageActionOk] at hb

theorem gollum_pages_first_bad (ps₁ : List PyVal) (b : PyVal) (ps₂ : List PyVal)
    (others : List (String × PyVal)) (h1 : ∀ p ∈ ps₁, pageActionOk p = true)
    (hb : pageActionOk b = false) :
    ∃ err, handle_gollum_event
      (PyVal.dict (("payload",
          PyVal.dict [("pages", PyVal.list (ps₁ ++ b :: ps₂))]) :: others))
      = .ok (ps₁.filterMap gollumSpecLine
          ++ [s!"- Could not process wiki event: {pyErrStr err}"]) := by
  obtain ⟨err, herr⟩ := gollumLoop_first_bad b ps₂ hb
  refine ⟨err, ?_⟩
  have hloop : gollumLoop (ps₁ ++ b :: ps₂)
      = (ps₁.filterMap gollumSpecLine, some err) := by
    rw [gollumLoop_append_ok ps₁ (b :: ps₂) h1, herr]
    simp
  unfold handle_gollum_event
  simp [PyVal.get, lookupKey, pyIter, Bind.bind, Except.bind, hloop]

theorem filterMap_gollumSpecLine_length (ps : List PyVal) :
    (ps.filterMap gollumSpecLine).length = (ps.filter isObj).length := by
  induction ps with
  | nil => rfl
  | cons p rest ih => cases p <;> simp [gollumSpecLine, isObj, ih]

theorem runEvents_append (es₁ es₂ : List PyVal) :
    runEvents (es₁ ++ es₂)
      = if (runEvents es₁).2 = Option.none
        then ((runEvents es₁).1 ++ (runEvents es₂).1, (runEvents es₂).2)
        else runEvents es₁ := by
  induction es₁ with
  | nil => simp [runEvents]
  | cons e rest ih =>
    cases he : handleEvent e with
    | error err => simp [runEvents, he]
    | ok ls =>
      rcases hr : runEvents rest with ⟨more, err?⟩
      rw [hr] at ih
      cases err? with
      | none => simp [runEvents, he, hr, ih, List.append_assoc]
      | some er => simp [runEvents, he, hr, ih]

/-- C5: the dispatch table has 17 entries, and an event whose type tag is not
in the table — or whose type key is absent, read as the empty string — prints
exactly the fallback line and processing continues with the rest. -/
theorem unknown_type_fallback :
    get_event_handlers.length = 17
    ∧ (∀ (fields : List (String × PyVal)) (rest : List PyVal) (tag : String),
        lookupKey fields "type" = some (PyVal.str tag) →
        lookupKey get_event_handlers tag = Option.none →
        runEvents (PyVal.dict fields :: rest)
          = ("- Unknown Event" :: (runEvents rest).1, (runEvents rest).2))
    ∧ (∀ (fields : List (String × PyVal)) (rest : List PyVal),
        lookupKey fields "type" = Option.none →
        runEvents (PyVal.dict fields :: rest)
          = ("- Unknown Event" :: (runEvents rest).1, (runEvents rest).2)) := by
  refine ⟨rfl, fun fields rest tag hty hlk => ?_, fun fields rest hty => ?_⟩
  · rcases hr : runEvents rest with ⟨more, err?⟩
    simp [runEvents, handleEvent, handlersGet, PyVal.get, hty, hlk, hr,
      Bind.bind, Except.bind, Pure.pure, Except.pure]
  · have hlk : lookupKey get_event_handlers "" = (Option.none : Option Handler) := rfl
    rcases hr : runEvents rest with ⟨more, err?⟩
    simp [runEvents, handleEvent, handlersGet, PyVal.get, hty, hlk, hr,
      Bind.bind, Except.bind, Pure.pure, Except.pure]

/-- C5 witness: a record with the unrecognized tag FooEvent prints exactly
the fallback line. -/
theorem unknown_type_fallback_witness :
    runEvents [PyVal.dict [("type", PyVal.str "FooEvent")]]
      = (["- Unknown Event"], Option.none) := by
  have h := unknown_type_fallback.2.1 [("type", PyVal.str "FooEvent")] [] "FooEvent" rfl rfl
  simpa [runEvents] using h

/-- C6 counterexample: a record that is not an object aborts the run with an
unhandled AttributeError and zero lines (not one line), and a GollumEvent
whose pages list holds one non-object entry yields zero lines for it (not one
line per entry). -/
theorem one_line_per_record_counterexample :
    runEvents [PyVal.int 5]
      = ([], some (PyErr.attributeError "int object has no attribute get"))
    ∧ handle_gollum_event
        (PyVal.dict [("payload", PyVal.dict [("pages", PyVal.list [PyVal.int 7])])])
      = .ok [] :=
  ⟨by decide, by decide⟩

/-- C6 (amended): output is the concatenation, in input order, of each
record's lines up to the first record whose formatter raises (which aborts
the run with no line for that record); every successfully formatted
non-GollumEvent record contributes exactly one line; a GollumEvent record
whose pages entries all format (each entry not an object, or an object whose
action is absent or a string) contributes one line per object entry of its
pages list (possibly zero), and a GollumEvent with a failing entry
contributes one line per object entry before the first failing entry plus
the single could-not-process line. -/
theorem lines_in_order_per_record :
    (∀ es₁ es₂ : List PyVal,
        runEvents (es₁ ++ es₂)
          = if (runEvents es₁).2 = Option.none
            then ((runEvents es₁).1 ++ (runEvents es₂).1, (runEvents es₂).2)
            else runEvents es₁)
    ∧ (∀ (e : PyVal) (ls : List String), handleEvent e = .ok ls →
        e.get "type" (.str "") ≠ .ok (PyVal.str "GollumEvent") → ls.length = 1)
    ∧ (∀ (ps : List PyVal) (others : List (String × PyVal)) (ls : List String),
        (∀ p ∈ ps, pageActionOk p = true) →
        handle_gollum_event
          (PyVal.dict (("payload", PyVal.dict [("pages", PyVal.list ps)]) :: others))
          = .ok ls →
        ls.length = (ps.filter isObj).length)
    ∧ (∀ (ps₁ : List PyVal) (b : PyVal) (ps₂ : List PyVal)
          (others : List (String × PyVal)) (ls : List String),
        (∀ p ∈ ps₁, pageActionOk p = true) → pageActionOk b = false →
        handle_gollum_event
          (PyVal.dict (("payload",
              PyVal.dict [("pages", PyVal.list (ps₁ ++ b :: ps₂))]) :: others))
          = .ok ls →
        ls.length = (ps₁.filter isObj).length + 1) := by
  refine ⟨runEvents_append, handleEvent_ok_oneLine, fun ps others ls hok hg => ?_,
    fun ps₁ b ps₂ others ls h1 hb hg => ?_⟩
  · rw [gollum_pages_ok ps others hok] at hg
    obtain rfl := Except.ok.inj hg
    exact filterMap_gollumSpecLine_length ps
  · obtain ⟨err, heq⟩ := gollum_pages_first_bad ps₁ b ps₂ others h1 hb
    rw [heq] at hg
    obtain rfl := Except.ok.inj hg
    simp [filterMap_gollumSpecLine_length ps₁]

/-- C6 witness: a WatchEvent record formats successfully to exactly one
line. -/
theorem lines_in_order_per_record_witness :
    handleEvent (PyVal.dict [("type", PyVal.str "WatchEvent"),
        ("repo", PyVal.dict [("name", PyVal.str "octocat/Hello-World")])])
      = .ok ["- Starred octocat/Hello-World"]
    ∧ (["- Starred octocat/Hello-World"] : List String).length = 1 :=
  ⟨by decide, lines_in_order_per_record.2.1
    (PyVal.dict [("type", PyVal.str "WatchEvent"),
      ("repo", PyVal.dict [("name", PyVal.str "octocat/Hello-World")])])
    ["- Starred octocat/Hello-World"] (by decide)
    (by simp [PyVal.get, lookupKey])⟩

/-- C8: the GollumEvent formatter never raises; with well-typed pages it
prints one line per object entry (pages and non-object entries as the claim
states), an absent payload yields zero lines, and an internal failure (here a
payload that is not an object) prints the single could-not-process line. -/
theorem gollum_event_tolerant :
    (∀ e, ∃ ls, handle_gollum_event e = .ok ls)
    ∧ (∀ (ps : List PyVal) (others : List (String × PyVal)),
        (∀ p ∈ ps, pageActionOk p = true) →
        handle_gollum_event
          (PyVal.dict (("payload", PyVal.dict [("pages", PyVal.list ps)]) :: others))
          = .ok (ps.filterMap gollumSpecLine))
    ∧ (∀ fields : List (String × PyVal), lookupKey fields "payload" = Option.none →
        handle_gollum_event (PyVal.dict fields) = .ok [])
    ∧ (∀ (others : List (String × PyVal)) (s : String),
        handle_gollum_event (PyVal.dict (("payload", PyVal.str s) :: others))
          = .ok ["- Could not process wiki event: str object has no attribute get"]) := by
  refine ⟨gollum_never_raises, gollum_pages_ok, fun fields hlk => ?_, fun others s => ?_⟩
  · unfold handle_gollum_event
    simp [PyVal.get, hlk, lookupKey, pyIter, Bind.bind, Except.bind, gollumLoop]
  · unfold handle_gollum_event
    simp [PyVal.get, lookupKey, pyErrStr, PyVal.typeName, Bind.bind, Except.bind]
    rfl

/-- C8 witness: one well-formed wiki page and one non-object entry format to
exactly the one line for the page. -/
theorem gollum_event_tolerant_witness :
    handle_gollum_event (PyVal.dict [("payload", PyVal.dict [("pages",
        PyVal.list [PyVal.dict [("title", PyVal.str "Home"),
          ("action", PyVal.str "created")], PyVal.int 3])])])
      = .ok ["- Created wiki page 'Home'"] := by
  have h := gollum_event_tolerant.2.1
    [PyVal.dict [("title", PyVal.str "Home"), ("action", PyVal.str "created")], PyVal.int 3]
    [] (by decide)
  have h2 : ([PyVal.dict [("title", PyVal.str "Home"), ("action", PyVal.str "created")],
      PyVal.int 3].filterMap gollumSpecLine) = ["- Created wiki page 'Home'"] := by decide
  rw [h2] at h
  exact h

/-- C9: formatting is a pure function of the record: the same record in a
run twice yields the same lines twice, and the lines a record contributes do
not depend on which records were formatted before it. -/
theorem formatting_history_independent :
    (∀ (e : PyVal) (ls : List String), handleEvent e = .ok ls →
        runEvents [e, e] = (ls ++ ls, Option.none))
    ∧ (∀ (pre₁ pre₂ : List PyVal) (e : PyVal),
        (runEvents pre₁).2 = Option.none → (runEvents pre₂).2 = Option.none →
        (runEvents (pre₁ ++ [e])).1.drop (runEvents pre₁).1.length
          = (runEvents (pre₂ ++ [e])).1.drop (runEvents pre₂).1.length) := by
  constructor
  · intro e ls h
    simp [runEvents, h]
  · intro pre₁ pre₂ e h1 h2
    rw [runEvents_append, if_pos h1, runEvents_append, if_pos h2]
    simp [List.drop_left]

/-- C9 witness: the same ForkEvent record twice yields the same line twice. -/
theorem formatting_history_independent_witness :
    runEvents [PyVal.dict [("type", PyVal.str "ForkEvent"),
        ("repo", PyVal.dict [("name", PyVal.str "a/b")])],
      PyVal.dict [("type", PyVal.str "ForkEvent"),
        ("repo", PyVal.dict [("name", PyVal.str "a/b")])]]
      = (["- Forked repo a/b", "- Forked repo a/b"], Option.none) :=
  formatting_history_independent.1 _ ["- Forked repo a/b"] (by decide)

/-- C7: a CreateEvent with repo.name, payload.ref_type and an optional
payload.ref formats to the branch the claim states: the repo line for
ref_type "repository", the quoted-ref line for branch or tag with a present
non-empty ref, and the plain line otherwise. -/
theorem create_event_branches (r rt : String) (ref : Option String) :
    handle_create_event
      (PyVal.dict [("repo", PyVal.dict [("name", PyVal.str r)]),
        ("payload", PyVal.dict (("ref_type", PyVal.str rt) ::
          (match ref with
           | some v => [("ref", PyVal.str v)]
           | Option.none => [])))])
      = .ok [createLineSpec r rt ref] := by
  cases ref with
  | none =>
    simp [handle_create_event, createLineSpec, PyVal.get, lookupKey, pyStr, pyTruthy,
      pyEqStr, Bind.bind, Except.bind, Pure.pure, Except.pure]
    by_cases h : rt = "repository" <;> simp [h]
  | some v =>
    simp [handle_create_event, createLineSpec, PyVal.get, lookupKey, pyStr, pyTruthy,
      pyEqStr, Bind.bind, Except.bind, Pure.pure, Except.pure]
    by_cases h : rt = "repository"
    · simp [h]
    · by_cases h2 : (rt = "branch" ∨ rt = "tag") ∧ v ≠ ""
      · have hv : v.isEmpty = false := by
          rcases h2 with ⟨h3, hne⟩
          cases hemp : v.isEmpty with
          | false => rfl
          | true => exact absurd ((String.isEmpty_iff v).mp hemp) hne
        simp [h, h2, hv]
      · by_cases hv : v = ""
        · simp [h, h2, hv]
          intro h3 h4
          exact absurd h4 (by decide)
        · have hrt : ¬(rt = "branch" ∨ rt = "tag") := fun hc => h2 ⟨hc, hv⟩
          simp [h, h2, hrt]

end GithubActivity
